import Mathlib

/-!
Shallow embedding of the `googleroutes` package of the PHY-Road-Safety
repository: the data model of directions-service responses, the polyline
extraction helpers (`_utils/_route_utils.py` and the root `googleroutes.py`),
the per-row batch pipeline of `routing.py`, the shapefile writers
(`shapefiles/shapefiles.py`), the extension resolver (`_utils/_ext_checks.py`)
and the configuration store (`config.py`).

Coordinates are modelled as integer pairs: the pipeline performs no arithmetic
on coordinate values, only reordering and container reshaping, so the carrier
of a coordinate is irrelevant to every property proved here.
-/

/-- A coordinate pair as it appears in the Python lists `[lat, lng]` /
`[lng, lat]`. -/
abbrev Coord := Int × Int

/-- Models the Python slice `pair[::-1]` applied to a two-element coordinate
list: the reversal swaps the two components. -/
def swapPair (p : Coord) : Coord := (p.2, p.1)

/-- One step of a directions leg. The encoded polyline string
(the points field of the polyline field of a step) is modelled by the vertex
list that `gm.convert.decode_polyline` returns for it (each decoded point
contributing its `(lat, lng)` pair); the decoder itself belongs to the
external `googlemaps` library and is out of scope. -/
structure Step where
  points : List Coord
deriving DecidableEq, Repr

/-- One leg of a directions route object: its list of steps. -/
structure Leg where
  steps : List Step
deriving DecidableEq, Repr

/-- One route object of a directions response: its list of legs. -/
structure RouteObj where
  legs : List Leg
deriving DecidableEq, Repr

/-- A value returned by `client.directions` as the guards of
`_get_polyline_from_route` distinguish them: `None`, a list of route objects
(possibly empty), or the empty mapping `{}`. -/
inductive Resp where
  | pynone
  | pylist (routes : List RouteObj)
  | pyEmptyDict
deriving DecidableEq, Repr

/-- The Python exceptions the embedded code can raise. -/
inductive PyErr where
  | valueError (msg : String)
  | nameError (missing : String)
  | assertionError (msg : String)
  | typeError
  | keyError
  | indexError
  | runtimeError (msg : String)
deriving DecidableEq, Repr

/-- Embeds `_get_polyline_from_route` of
`src/googleroutes/_utils/_route_utils.py` (lines 8-31).

Guards: a `None` route and a falsy route raise `ValueError` (the comparison
with the empty dict is subsumed by the falsiness guard).  Extraction then
indexes the first route object and its first leg (an empty leg list raises
`IndexError`) and iterates over that leg.  The loop body evaluates the name
`gm`, which the module never imports or binds (its imports, lines 1-4, are
`datetime`, `read_kml`, `folium as fm` and `get_client`): every iteration
therefore raises `NameError`.  With zero steps the loop body never runs and
the empty accumulator is returned. -/
def _get_polyline_from_route (route : Resp) : Except PyErr (List Coord) :=
  match route with
  | .pynone => .error (.valueError "Route is None")
  | .pyEmptyDict => .error (.valueError "Route is empty")
  | .pylist [] => .error (.valueError "Route is empty")
  | .pylist (r :: _) =>
    match r.legs with
    | [] => .error .indexError
    | leg :: _ =>
      match leg.steps with
      | [] => .ok []
      | _ :: _ => .error (.nameError "gm")

/-- Models the unzipping line of `get_polyline_from_route` of the root
`src/googleroutes.py` (line 90): the decoded points are rebuilt as
`(lat, lng)` tuples and star-unpacked through `zip` into the two tuples
`step_lats` and `step_lngs`.  Unpacking `zip` of an empty argument list into
two targets raises `ValueError`; otherwise the two projections are
produced. -/
def stepLatLngs (s : Step) : Except PyErr (List Int × List Int) :=
  match s.points with
  | [] => .error (.valueError "not enough values to unpack (expected 2, got 0)")
  | _ :: _ => .ok (s.points.map Prod.fst, s.points.map Prod.snd)

/-- The step loop of `get_polyline_from_route` of the root `src/googleroutes.py`
(lines 88-92): for each step in order, unzip the decoded points, then re-zip
`step_lats` with `step_lngs` and append each `[lat, lng]` pair to the
accumulator. -/
def stepsLoop : List Step → List Coord → Except PyErr (List Coord)
  | [], acc => .ok acc
  | s :: ss, acc =>
    match stepLatLngs s with
    | .error e => .error e
    | .ok lls => stepsLoop ss (acc ++ lls.1.zip lls.2)

/-- Embeds `get_polyline_from_route` of the root `src/googleroutes.py`
(lines 76-93), where the module does import `googlemaps as gm`.

Its only guard is an assert that the route differs from the empty list; a
`None` input then fails at the first subscript with `TypeError` and the
empty dict fails with `KeyError`.  The extraction reads the steps of the
first leg of the first route object only, and runs the step loop over
them. -/
def get_polyline_from_route (route : Resp) : Except PyErr (List Coord) :=
  match route with
  | .pynone => .error .typeError
  | .pyEmptyDict => .error .keyError
  | .pylist [] => .error (.assertionError "Route is empty")
  | .pylist (r :: _) =>
    match r.legs with
    | [] => .error .indexError
    | leg :: _ => stepsLoop leg.steps []

/-- The list comprehension over already-filtered responses: the extractor is
evaluated left to right and the first exception raised propagates to the
caller. -/
def extractPolylines : List Resp → Except PyErr (List (List Coord))
  | [] => .ok []
  | r :: rs =>
    match _get_polyline_from_route r with
    | .error e => .error e
    | .ok c =>
      match extractPolylines rs with
      | .error e => .error e
      | .ok cs => .ok (c :: cs)

/-- Embeds the per-row route extraction shared by
`generate_from_isochrones` (`src/googleroutes/routing.py`, line 215) and
`_get_routes_from_kml` (`src/googleroutes/_utils/_route_utils.py`, line 51):
a comprehension applying `_get_polyline_from_route` to every response whose
value differs from the empty list.  Only empty-list responses are filtered
out; no caller catches an exception raised by the extractor. -/
def routesCoords (responses : List Resp) : Except PyErr (List (List Coord)) :=
  extractPolylines (responses.filter (fun r => r ≠ Resp.pylist []))

/-- Embeds the geometry construction
`MultiLineString([[L[::-1] for L in sub] for sub in coords])` of
`src/googleroutes/routing.py` (lines 89 and 220): the external shapely
constructor is modelled by the list of coordinate lists it carries (its
`.geoms` attribute enumerates exactly these paths, in order). -/
def multiLineStringGeoms (coords : List (List Coord)) : List (List Coord) :=
  coords.map (fun sub => sub.map swapPair)

/-- A written vector-file feature: sequential integer id plus line geometry,
as built by the record comprehension over `enumerate(list(geometry.geoms))`
passed to `writerecords` (`src/googleroutes/routing.py`, lines 102 and
234-235): each record carries the mapped geometry and an id property. -/
structure Feature where
  id : Nat
  geom : List Coord
deriving DecidableEq, Repr

/-- Embeds the `writerecords` argument of the route writers: one record per
geometry, ids assigned by `enumerate` in written order. -/
def writeRecords (geoms : List (List Coord)) : List Feature :=
  (geoms.enum).map (fun g => ⟨g.1, g.2⟩)

/-- One row of `generate_from_isochrones` after route fetching: extract the
coordinates, build the geometry, write the records
(`src/googleroutes/routing.py`, lines 211-235). -/
def processRow (responses : List Resp) : Except PyErr (List Feature) := do
  let coords ← routesCoords responses
  pure (writeRecords (multiLineStringGeoms coords))

/-- A Python argument value as passed around `generate_from_kml` /
`_get_routes_from_kml`: `None`, a string, or a `datetime`.  A `datetime` is
opaque to the embedded code, so it is modelled by an integer tag. -/
inductive PVal where
  | pynone
  | str (s : String)
  | time (t : Int)
deriving DecidableEq, Repr

/-- The keyword arguments of one `client.directions(...)` call issued by
`_get_routes_from_kml` (`src/googleroutes/_utils/_route_utils.py`, line 48). -/
structure KmlRequest where
  origin : Coord
  destination : String
  mode : PVal
  region : PVal
  alternatives : Bool
  departure_time : PVal
  arrival_time : PVal
deriving DecidableEq, Repr

/-- Embeds the request construction of `_get_routes_from_kml`
(parameters, in positional order:
`fname, destination, mode="walking", region="uk", departure_time=None, arrival_time=None`).
Reading the KML file is external; the origin list it yields is taken as
input.  One directions call is issued per origin, with `alternatives=True`. -/
def getRoutesFromKmlRequests (origins : List Coord) (destination : String)
    (mode region departure_time arrival_time : PVal) : List KmlRequest :=
  origins.map (fun o => ⟨o, destination, mode, region, true, departure_time, arrival_time⟩)

/-- Embeds the call site `generate_from_kml` line 84 of
`src/googleroutes/routing.py`:
`_get_routes_from_kml(origins_fname, destination, mode, departure_time, arrival_time)`
passes five positional arguments into the six-parameter callee, so
`region` receives the caller's `departure_time`, `departure_time` receives
the caller's `arrival_time`, and `arrival_time` keeps its default `None`. -/
def generateFromKmlRequests (origins : List Coord) (destination : String)
    (mode departure_time arrival_time : PVal) : List KmlRequest :=
  getRoutesFromKmlRequests origins destination mode departure_time arrival_time PVal.pynone

/-- An isochrone polygon of the input GeoDataFrame, given by its distinct
boundary vertices in order, each an `(x, y) = (lng, lat)` pair. -/
structure Polygon where
  boundary : List Coord
deriving DecidableEq, Repr

/-- Models shapely's `polygon.exterior.coords` (read through
`np.asarray(....coords.xy).T.tolist()` in `src/googleroutes/routing.py`,
lines 196-197): the exterior `LinearRing` is closed, so its coordinate
sequence repeats the first boundary vertex at the end — a polygon with `n`
distinct boundary vertices yields `n + 1` ring coordinates. -/
def exteriorCoords (p : Polygon) : List Coord :=
  match p.boundary with
  | [] => []
  | v :: _ => p.boundary ++ [v]

/-- Embeds the origin derivation of `generate_from_isochrones`
(`src/googleroutes/routing.py`, lines 196-197):
`origins = [pair[::-1] for pair in np.asarray(df.geometry.loc[i].exterior.coords.xy).T.tolist()]`. -/
def rowOrigins (p : Polygon) : List Coord :=
  (exteriorCoords p).map swapPair

/-- The keyword arguments of one `client.directions(...)` call issued by
`generate_from_isochrones` (`src/googleroutes/routing.py`, lines 211-212). -/
structure IsoRequest where
  origin : Coord
  destination : Coord
  mode : String
  region : String
  alternatives : Bool
  departure_time : PVal
  arrival_time : PVal
deriving DecidableEq, Repr

/-- Embeds the per-row directions-call construction of
`generate_from_isochrones`: one call per derived origin, with
`region="uk"` and `alternatives=True`. -/
def isochroneRowRequests (p : Polygon) (destination : Coord) (mode : String)
    (departure_time arrival_time : PVal) : List IsoRequest :=
  (rowOrigins p).map
    (fun o => ⟨o, destination, mode, "uk", true, departure_time, arrival_time⟩)

/-- Embeds the `FileExtensionError` class of
`src/googleroutes/_utils/_ext_checks.py` (lines 6-19): it stores the
offending extension in its `ext` attribute alongside a message. -/
structure FileExtensionError where
  ext : String
  message : String
deriving DecidableEq, Repr

/-- Models the extension component of Python's `os.path.splitext` applied to
the basename of the path (characters after the last `/`): the extension is
the suffix starting at the last dot, provided some earlier character of the
basename is not a dot (so leading dots, as in `.bashrc`, never start an
extension); otherwise it is empty. -/
def splitextExtChars (base : List Char) : List Char :=
  match (base.enum.filterMap (fun ic => if ic.2 = '.' then some ic.1 else none)).getLast? with
  | none => []
  | some j => if (base.take j).any (fun c => c ≠ '.') then base.drop j else []

/-- The basename of a POSIX path: the component after the last `/`. -/
def basenameChars (path : List Char) : List Char :=
  ((path.splitOn '/').getLastD []).map id

/-- The extension `os.path.splitext(file_path)[1]` of a path string. -/
def pySplitextExt (path : String) : String :=
  String.mk (splitextExtChars (basenameChars path.toList))

/-- Models the Python `str.lower()` call applied to an extension string:
character-wise lower-casing. -/
def pyLower (s : String) : String :=
  String.mk (s.toList.map Char.toLower)

/-- Embeds `choose_driver` of `src/googleroutes/_utils/_ext_checks.py`
(lines 111-133): take the extension of the path, lower-case it, map the
three supported extensions to their driver names, and raise
`FileExtensionError` carrying the (lower-cased) extension otherwise. -/
def choose_driver (file_path : String) : Except FileExtensionError String :=
  let ext := pyLower (pySplitextExt file_path)
  if ext = ".shp" then .ok "ESRI Shapefile"
  else if ext = ".gpkg" then .ok "GPKG"
  else if ext = ".geojson" then .ok "GeoJSON"
  else .error ⟨ext, "Could not determine driver for file extension"⟩

/-- The external `googlemaps.Client` handle, opaque to this code: only its
construction key is visible. -/
structure GMClient where
  key : String
deriving DecidableEq, Repr

/-- The singleton `Config` of `src/googleroutes/config.py`: the pair of the
stored CRS string and the optional client handle (initialised to
`crs="epsg:4326"`, `client=None`). -/
structure Config where
  crs : String
  client : Option GMClient
deriving DecidableEq, Repr

/-- Embeds `get_crs` (`config.py`, lines 43-48). -/
def get_crs (c : Config) : String := c.crs

/-- Embeds `get_client` (`config.py`, lines 50-59): raises `RuntimeError`
when the stored client is `None`. -/
def get_client (c : Config) : Except PyErr GMClient :=
  match c.client with
  | none => .error (.runtimeError "Google Maps client not initialized. Call start_client() first.")
  | some cl => .ok cl

/-- Embeds `stop_client` (`config.py`, lines 80-87): `del config.client`
followed by `config.set_client(None)` leaves the client attribute bound to
`None` and touches nothing else. -/
def stop_client (c : Config) : Config :=
  { c with client := none }

/-- A point geometry `Point(lng, lat)` as written by the shapefile helpers. -/
structure PointGeom where
  x : Int
  y : Int
deriving DecidableEq, Repr

/-- Embeds `create_school_shapefile` of
`src/googleroutes/shapefiles/shapefiles.py` (lines 9-33): builds
`Point(float(lng), float(lat))` and writes a single record with id `1`. -/
def create_school_shapefile (lat lng : Int) : List (PointGeom × Int) :=
  [(⟨lng, lat⟩, 1)]

/-- One input row of the dataframe given to `create_multi_points_shapefile`:
its longitude, latitude and id-column values. -/
structure Row where
  longitude : Int
  latitude : Int
  idValue : String
deriving DecidableEq, Repr

/-- Models the element-wise body of the `writerecords` comprehension of
`create_multi_points_shapefile` (`src/googleroutes/shapefiles/shapefiles.py`,
lines 61-62): each element of `zip(geometry, dataframe.iterrows())` is the
two-tuple `(point, (i, row))`, but the target pattern of the comprehension,
`point, i, row`, demands three values, so iterating over any element raises
`ValueError` before a record is produced. -/
def multiPointsRecord (_e : PointGeom × (Nat × Row)) : Except PyErr (PointGeom × String) :=
  .error (.valueError "not enough values to unpack (expected 3, got 2)")

/-- Embeds `create_multi_points_shapefile`
(`src/googleroutes/shapefiles/shapefiles.py`, lines 36-64): builds one
`Point` per row, zips the points with `dataframe.iterrows()` (index, row
pairs), and evaluates the record comprehension over the zipped list.  With
zero rows the comprehension is empty and zero records are written; with any
row present the first element's unpacking raises. -/
def create_multi_points_shapefile (rows : List Row) : Except PyErr (List (PointGeom × String)) := do
  let geometry := rows.map (fun r => (⟨r.longitude, r.latitude⟩ : PointGeom))
  let recs ← (geometry.zip rows.enum).mapM multiPointsRecord
  pure recs

/-! Helper lemmas. -/

/-- Re-zipping the two projections of a pair list rebuilds the list: the
unzip-then-zip dance of the step loop is the identity on a non-empty decoded
point list. -/
theorem zip_proj_eq_self {α β : Type} (l : List (α × β)) :
    (l.map Prod.fst).zip (l.map Prod.snd) = l := by
  induction l with
  | nil => rfl
  | cons p ps ih => simpa using ih

/-- The unzip line succeeds exactly on steps with a non-empty decoded point
list, yielding the two projections. -/
theorem stepLatLngs_ok (s : Step) (h : s.points ≠ []) :
    stepLatLngs s = .ok (s.points.map Prod.fst, s.points.map Prod.snd) := by
  rcases hp : s.points with _ | ⟨q, qs⟩
  · exact absurd hp h
  · simp [stepLatLngs, hp]

/-- The step loop succeeds on steps whose decoded point lists are all
non-empty, returning the accumulator followed by the concatenated points. -/
theorem stepsLoop_ok (steps : List Step) (acc : List Coord)
    (h : ∀ s ∈ steps, s.points ≠ []) :
    stepsLoop steps acc = .ok (acc ++ steps.flatMap Step.points) := by
  induction steps generalizing acc with
  | nil => simp [stepsLoop]
  | cons s ss ih =>
    have hs : s.points ≠ [] := h s (by simp)
    have hss : ∀ t ∈ ss, t.points ≠ [] := fun t ht => h t (by simp [ht])
    simp only [stepsLoop, stepLatLngs_ok s hs]
    rw [zip_proj_eq_self]
    rw [ih (acc ++ s.points) hss]
    simp [List.flatMap_cons, List.append_assoc]

/-- If the comprehension over responses succeeds, every response it visited
was extracted successfully. -/
theorem extractPolylines_ok_forall (rs : List Resp) (l : List (List Coord))
    (h : extractPolylines rs = .ok l) :
    ∀ r ∈ rs, ∃ c, _get_polyline_from_route r = .ok c := by
  induction rs generalizing l with
  | nil => simp
  | cons r rs ih =>
    intro a ha
    rcases hr : _get_polyline_from_route r with e | c
    · simp [extractPolylines, hr] at h
    · rcases hrest : extractPolylines rs with e | cs
      · simp [extractPolylines, hr, hrest] at h
      · rcases List.mem_cons.mp ha with rfl | ha
        · exact ⟨c, hr⟩
        · exact ih cs hrest a ha

/-- If the comprehension succeeds, every produced coordinate list came from a
successful extraction of some visited response. -/
theorem extractPolylines_ok_mem (rs : List Resp) (l : List (List Coord))
    (h : extractPolylines rs = .ok l) :
    ∀ c ∈ l, ∃ r, r ∈ rs ∧ _get_polyline_from_route r = .ok c := by
  induction rs generalizing l with
  | nil =>
    simp [extractPolylines] at h
    subst h
    simp
  | cons r rs ih =>
    rcases hr : _get_polyline_from_route r with e | c0
    · simp [extractPolylines, hr] at h
    · rcases hrest : extractPolylines rs with e | cs
      · simp [extractPolylines, hr, hrest] at h
      · simp only [extractPolylines, hr, hrest, Except.ok.injEq] at h
        subst h
        intro c hc
        rcases List.mem_cons.mp hc with rfl | hc
        · exact ⟨r, by simp, hr⟩
        · rcases ih cs hrest c hc with ⟨r1, hr1, hok⟩
          exact ⟨r1, by simp [hr1], hok⟩

/-! Claim theorems. -/

/-- C4: for every non-empty RouteSet, the MultiLineString construction
outputs one path per route, and the j-th coordinate of the i-th path is the
(lng, lat) reversal of the j-th (lat, lng) coordinate of the i-th route, in
the same order. -/
theorem c4_geometry_assembler (coords : List (List Coord)) (h : coords ≠ []) :
    (multiLineStringGeoms coords).length = coords.length ∧
    ∀ (i j : Nat), ((multiLineStringGeoms coords)[i]?.bind (fun path : List Coord => path[j]?)) =
      ((coords[i]?.bind (fun route : List Coord => route[j]?)).map swapPair) := by
  refine ⟨by simp [multiLineStringGeoms], ?_⟩
  intro i j
  simp only [multiLineStringGeoms, List.getElem?_map]
  cases hr : coords[i]? with
  | none => simp
  | some route => simp [List.getElem?_map]

/-- C4 witness: instantiation at the one-route RouteSet containing the
single (lat, lng) pair (1, 2). -/
theorem c4_geometry_assembler_witness :
    (multiLineStringGeoms [[((1 : Int), (2 : Int))]]).length = 1 ∧
    ((multiLineStringGeoms [[((1 : Int), (2 : Int))]])[0]?.bind (fun path : List Coord => path[0]?)) =
      some ((2 : Int), (1 : Int)) := by
  have h := c4_geometry_assembler [[((1 : Int), (2 : Int))]] (by simp)
  refine ⟨h.1, ?_⟩
  have h2 := h.2 0 0
  simpa [swapPair] using h2

/-- C8: `stop_client` only clears the client reference: the stored CRS is
unchanged (`get_crs` agrees before and after), the client becomes `None`,
and a subsequent `get_client` fails with the not-initialized RuntimeError. -/
theorem c8_stop_client_frame (c : Config) :
    get_crs (stop_client c) = get_crs c ∧
    (stop_client c).client = none ∧
    get_client (stop_client c) =
      .error (.runtimeError "Google Maps client not initialized. Call start_client() first.") ∧
    stop_client c = { crs := c.crs, client := none } := by
  refine ⟨rfl, rfl, rfl, rfl⟩

/-- C10: `generate_from_kml` forwards its arguments positionally to
`_get_routes_from_kml`, so every directions request it causes carries the
departure_time value of the caller as its region, the arrival_time value of
the caller as its departure_time, and `None` as its arrival_time, while the
mode is forwarded intact. -/
theorem c10_positional_forwarding (origins : List Coord) (destination : String)
    (mode departure_time arrival_time : PVal) (req : KmlRequest)
    (hreq : req ∈ generateFromKmlRequests origins destination mode departure_time arrival_time) :
    req.region = departure_time ∧ req.departure_time = arrival_time ∧
    req.arrival_time = PVal.pynone ∧ req.mode = mode := by
  simp only [generateFromKmlRequests, getRoutesFromKmlRequests, List.mem_map] at hreq
  obtain ⟨o, _, rfl⟩ := hreq
  exact ⟨rfl, rfl, rfl, rfl⟩

/-- C10 witness: a concrete call with one origin, departure time tagged 5
and arrival time tagged 6 produces the request whose region is the tag-5
time, whose departure time is the tag-6 time and whose arrival time is
None. -/
theorem c10_positional_forwarding_witness :
    (⟨((0 : Int), (0 : Int)), "dest", PVal.str "walking", PVal.time 5, true,
        PVal.time 6, PVal.pynone⟩ : KmlRequest).region = PVal.time 5 ∧
    (⟨((0 : Int), (0 : Int)), "dest", PVal.str "walking", PVal.time 5, true,
        PVal.time 6, PVal.pynone⟩ : KmlRequest).departure_time = PVal.time 6 ∧
    (⟨((0 : Int), (0 : Int)), "dest", PVal.str "walking", PVal.time 5, true,
        PVal.time 6, PVal.pynone⟩ : KmlRequest).arrival_time = PVal.pynone ∧
    (⟨((0 : Int), (0 : Int)), "dest", PVal.str "walking", PVal.time 5, true,
        PVal.time 6, PVal.pynone⟩ : KmlRequest).mode = PVal.str "walking" := by
  exact c10_positional_forwarding [((0 : Int), (0 : Int))] "dest" (PVal.str "walking")
    (PVal.time 5) (PVal.time 6) _ (by simp [generateFromKmlRequests, getRoutesFromKmlRequests])

/-- C7: `choose_driver` lower-cases the extension of the path and returns
the ESRI Shapefile, GPKG or GeoJSON driver for the three supported
extensions; any other extension — including the empty one of an
extensionless path — raises `FileExtensionError` whose ext attribute is the
(lower-cased) offending extension. -/
theorem c7_choose_driver (p : String) :
    (pyLower (pySplitextExt p) = ".shp" → choose_driver p = .ok "ESRI Shapefile") ∧
    (pyLower (pySplitextExt p) = ".gpkg" → choose_driver p = .ok "GPKG") ∧
    (pyLower (pySplitextExt p) = ".geojson" → choose_driver p = .ok "GeoJSON") ∧
    (pyLower (pySplitextExt p) ∉ [".shp", ".gpkg", ".geojson"] →
      choose_driver p =
        .error ⟨pyLower (pySplitextExt p), "Could not determine driver for file extension"⟩) ∧
    (pySplitextExt p = "" →
      choose_driver p = .error ⟨"", "Could not determine driver for file extension"⟩) := by
  refine ⟨?_, ?_, ?_, ?_, ?_⟩
  · intro h
    simp [choose_driver, h]
  · intro h
    simp [choose_driver, h]
  · intro h
    simp [choose_driver, h]
  · intro h
    simp only [List.mem_cons, List.mem_singleton, not_or] at h
    obtain ⟨h1, h2, h3⟩ := h
    simp [choose_driver, h1, h2, h3]
  · intro h
    have hlow : pyLower (pySplitextExt p) = "" := by
      rw [h]
      rfl
    simp [choose_driver, hlow]

/-- C7 witness: the five concrete inputs of the spec scenario. -/
theorem c7_choose_driver_witness :
    choose_driver "x.shp" = .ok "ESRI Shapefile" ∧
    choose_driver "x.gpkg" = .ok "GPKG" ∧
    choose_driver "x.geojson" = .ok "GeoJSON" ∧
    choose_driver "x.txt" = .error ⟨".txt", "Could not determine driver for file extension"⟩ ∧
    choose_driver "x" = .error ⟨"", "Could not determine driver for file extension"⟩ := by
  refine ⟨(c7_choose_driver "x.shp").1 (by decide),
    (c7_choose_driver "x.gpkg").2.1 (by decide),
    (c7_choose_driver "x.geojson").2.2.1 (by decide),
    ?_, (c7_choose_driver "x").2.2.2.2 (by decide)⟩
  have h := (c7_choose_driver "x.txt").2.2.2.1 (by decide)
  have he : pyLower (pySplitextExt "x.txt") = ".txt" := by decide
  rw [he] at h
  exact h

/-- The quadrilateral isochrone of the C6 scenario: four distinct boundary
vertices. -/
def sqPolygon : Polygon := ⟨[((0 : Int), (0 : Int)), (0, 1), (1, 1), (1, 0)]⟩

/-- C6 counterexample: for the four-vertex polygon, the row issues five
directions calls, not four — the closed exterior ring repeats the first
vertex, and one call is made per ring coordinate. -/
theorem c6_counterexample :
    sqPolygon.boundary.length = 4 ∧
    (isochroneRowRequests sqPolygon (515, -1) "walking" PVal.pynone PVal.pynone).length = 5 ∧
    (isochroneRowRequests sqPolygon (515, -1) "walking" PVal.pynone PVal.pynone).length ≠ 4 := by
  decide

/-- C6 (amended): for a row whose polygon has a non-empty boundary, the
Orchestrator issues one directions call per exterior-ring coordinate — the
number of distinct boundary vertices plus one, the closing coordinate
repeating the first vertex — and the origin of the k-th call is the k-th
ring coordinate with its components swapped to (lat, lng); every call uses
region uk and alternatives on. -/
theorem c6_ring_call_count (p : Polygon) (h : p.boundary ≠ []) (destination : Coord)
    (mode : String) (dt at_ : PVal) :
    (isochroneRowRequests p destination mode dt at_).length = p.boundary.length + 1 ∧
    (∀ (k : Nat), ((isochroneRowRequests p destination mode dt at_)[k]?).map IsoRequest.origin
        = ((exteriorCoords p)[k]?).map swapPair) ∧
    (∀ req ∈ isochroneRowRequests p destination mode dt at_,
      req.region = "uk" ∧ req.alternatives = true) := by
  refine ⟨?_, ?_, ?_⟩
  · rcases hb : p.boundary with _ | ⟨v, vs⟩
    · exact absurd hb h
    · simp [isochroneRowRequests, rowOrigins, exteriorCoords, hb]
  · intro k
    simp only [isochroneRowRequests, rowOrigins, List.getElem?_map]
    cases hc : (exteriorCoords p)[k]? with
    | none => simp
    | some v => simp
  · intro req hreq
    simp only [isochroneRowRequests, List.mem_map] at hreq
    obtain ⟨o, _, rfl⟩ := hreq
    exact ⟨rfl, rfl⟩

/-- C6 witness: the amended statement applied at the four-vertex square, a
concrete destination and walking mode. -/
theorem c6_ring_call_count_witness :
    (isochroneRowRequests sqPolygon (515, -1) "walking" PVal.pynone PVal.pynone).length
        = sqPolygon.boundary.length + 1 ∧
    ((isochroneRowRequests sqPolygon (515, -1) "walking" PVal.pynone PVal.pynone)[0]?).map
        IsoRequest.origin = ((exteriorCoords sqPolygon)[0]?).map swapPair := by
  have h := c6_ring_call_count sqPolygon (by decide) (515, -1) "walking" PVal.pynone PVal.pynone
  exact ⟨h.1, h.2.1 0⟩

/-- C1 counterexample: an origin whose directions response is None, and one
whose response is the empty dict, each make the batch extraction raise a
ValueError that no caller catches — the origin is not silently dropped. -/
theorem c1_counterexample :
    routesCoords [Resp.pynone] = .error (.valueError "Route is None") ∧
    routesCoords [Resp.pyEmptyDict] = .error (.valueError "Route is empty") :=
  ⟨rfl, rfl⟩

/-- C1 (amended): only origins whose response is the empty list are silently
dropped — removing them changes nothing and the remaining origins are still
processed; an origin whose response is None or the empty dict makes a
ValueError escape the Orchestrator boundary, aborting the row. -/
theorem c1_per_origin_handling (responses : List Resp) :
    routesCoords (responses.filter (fun r => r ≠ Resp.pylist [])) = routesCoords responses ∧
    (Resp.pynone ∈ responses → ∃ e, routesCoords responses = .error e) ∧
    (Resp.pyEmptyDict ∈ responses → ∃ e, routesCoords responses = .error e) := by
  refine ⟨?_, ?_, ?_⟩
  · simp [routesCoords, List.filter_filter]
  · intro hmem
    rcases hres : routesCoords responses with e | l
    · exact ⟨e, rfl⟩
    · exfalso
      have hmemf : Resp.pynone ∈ responses.filter (fun r => r ≠ Resp.pylist []) := by
        simp [List.mem_filter, hmem]
      rcases extractPolylines_ok_forall _ l hres Resp.pynone hmemf with ⟨c, hc⟩
      simp [_get_polyline_from_route] at hc
  · intro hmem
    rcases hres : routesCoords responses with e | l
    · exact ⟨e, rfl⟩
    · exfalso
      have hmemf : Resp.pyEmptyDict ∈ responses.filter (fun r => r ≠ Resp.pylist []) := by
        simp [List.mem_filter, hmem]
      rcases extractPolylines_ok_forall _ l hres Resp.pyEmptyDict hmemf with ⟨c, hc⟩
      simp [_get_polyline_from_route] at hc

/-- C1 witness: in a batch holding an empty-list response and a None
response, filtering the empty list away changes nothing, and the None
response makes the whole extraction return an error. -/
theorem c1_per_origin_handling_witness :
    routesCoords ([Resp.pylist [], Resp.pynone].filter (fun r => r ≠ Resp.pylist []))
        = routesCoords [Resp.pylist [], Resp.pynone] ∧
    ∃ e, routesCoords [Resp.pylist [], Resp.pynone] = .error e := by
  have h := c1_per_origin_handling [Resp.pylist [], Resp.pynone]
  exact ⟨h.1, h.2.1 (by simp)⟩

/-- C5 counterexample: a row whose surviving RouteSet is empty does not fail
— no EmptyRouteSet error exists in the code.  The empty geometry is built
and the writer stage completes, writing zero features. -/
theorem c5_counterexample :
    processRow [] = .ok [] ∧
    multiLineStringGeoms [] = [] ∧
    writeRecords (multiLineStringGeoms []) = [] :=
  ⟨rfl, rfl, rfl⟩

/-- C5 (amended): when a row yields zero surviving routes, no error is
raised: the geometry construction produces the empty multi-path geometry and
the pipeline continues to the writer, which writes a file with zero
features. -/
theorem c5_empty_routeset_continues (responses : List Resp)
    (h : routesCoords responses = .ok []) :
    processRow responses = .ok [] ∧
    multiLineStringGeoms [] = [] := by
  refine ⟨?_, rfl⟩
  simp [processRow, h, multiLineStringGeoms, writeRecords]

/-- C5 witness: the amended statement at the empty response batch. -/
theorem c5_empty_routeset_continues_witness :
    processRow [] = .ok [] ∧ multiLineStringGeoms [] = [] :=
  c5_empty_routeset_continues [] rfl

/-- The two-leg directions response of the C2 counterexample: the first leg
decodes to the vertices (1, 2) and (3, 4), the second leg to (5, 6) and
(7, 8). -/
def twoLegResp : Resp :=
  Resp.pylist [⟨[⟨[⟨[(1, 2), (3, 4)]⟩]⟩, ⟨[⟨[(5, 6), (7, 8)]⟩]⟩]⟩]

/-- C2 counterexample: on a response whose single route object has two legs,
the extraction returns only the first leg's vertices — the second leg's
vertices are absent, so the output does not concatenate all legs. -/
theorem c2_counterexample :
    get_polyline_from_route twoLegResp = .ok [(1, 2), (3, 4)] ∧
    get_polyline_from_route twoLegResp ≠ .ok [(1, 2), (3, 4), (5, 6), (7, 8)] := by
  refine ⟨rfl, ?_⟩
  intro hcontra
  have h1 : get_polyline_from_route twoLegResp = .ok [(1, 2), (3, 4)] := rfl
  rw [h1] at hcontra
  simp at hcontra

/-- C2 (amended): for every non-empty directions response, the extraction
decodes the steps of the first leg of the first route object only —
concatenating the decoded vertex pairs in step order, vertex order (provided
each step decodes to at least one vertex) — and ignores all further legs and
route objects. -/
theorem c2_first_leg_extraction (r : RouteObj) (rest : List RouteObj)
    (leg : Leg) (legs : List Leg) (hlegs : r.legs = leg :: legs)
    (hsteps : ∀ s ∈ leg.steps, s.points ≠ []) :
    get_polyline_from_route (Resp.pylist (r :: rest)) = .ok (leg.steps.flatMap Step.points) := by
  rcases r with ⟨rlegs⟩
  simp only [RouteObj.mk.injEq] at hlegs
  subst hlegs
  simp only [get_polyline_from_route]
  simpa using stepsLoop_ok leg.steps [] hsteps

/-- C2 witness: the amended statement applied at a one-leg, two-step
response. -/
theorem c2_first_leg_extraction_witness :
    get_polyline_from_route
        (Resp.pylist [⟨[⟨[⟨[(1, 2)]⟩, ⟨[(3, 4)]⟩]⟩]⟩])
      = .ok [(1, 2), (3, 4)] := by
  have h := c2_first_leg_extraction ⟨[⟨[⟨[(1, 2)]⟩, ⟨[(3, 4)]⟩]⟩]⟩ []
    ⟨[⟨[(1, 2)]⟩, ⟨[(3, 4)]⟩]⟩ [] rfl (by decide)
  simpa using h

/-- C9 counterexample: a response that passes the None/empty guards but
whose first leg has zero steps returns the empty vertex list instead of
raising NameError — the loop body, where the unbound name gm is evaluated,
never runs. -/
theorem c9_counterexample :
    _get_polyline_from_route (Resp.pylist [⟨[⟨[]⟩]⟩]) = .ok [] ∧
    Resp.pylist [⟨[⟨[]⟩]⟩] ≠ Resp.pynone ∧
    Resp.pylist [⟨[⟨[]⟩]⟩] ≠ Resp.pylist [] ∧
    Resp.pylist [⟨[⟨[]⟩]⟩] ≠ Resp.pyEmptyDict := by
  refine ⟨rfl, by simp, by simp, by simp⟩

/-- C9 (amended): `_get_polyline_from_route` of `_route_utils.py` raises
NameError for the unbound name gm on every guard-passing response whose
first leg has at least one step; guard-passing responses with no step return
the empty list; consequently no successful extraction — and hence no call
through the packaged pipeline — ever produces a non-empty Route. -/
theorem c9_gm_unbound :
    (∀ (resp : Resp) (pts : List Coord),
      _get_polyline_from_route resp = .ok pts → pts = []) ∧
    (∀ (r : RouteObj) (rest : List RouteObj) (leg : Leg) (legs : List Leg),
      r.legs = leg :: legs → leg.steps ≠ [] →
        _get_polyline_from_route (Resp.pylist (r :: rest)) = .error (.nameError "gm")) ∧
    (∀ (responses : List Resp) (coordss : List (List Coord)),
      routesCoords responses = .ok coordss → ∀ cs ∈ coordss, cs = []) := by
  have hok : ∀ (resp : Resp) (pts : List Coord),
      _get_polyline_from_route resp = .ok pts → pts = [] := by
    intro resp pts h
    rcases resp with _ | rs | _
    · simp [_get_polyline_from_route] at h
    · rcases rs with _ | ⟨r, rest⟩
      · simp [_get_polyline_from_route] at h
      · rcases hlegs : r.legs with _ | ⟨leg, legs⟩
        · simp [_get_polyline_from_route, hlegs] at h
        · rcases hsteps : leg.steps with _ | ⟨s, ss⟩
          · simp [_get_polyline_from_route, hlegs, hsteps] at h
            exact h
          · simp [_get_polyline_from_route, hlegs, hsteps] at h
    · simp [_get_polyline_from_route] at h
  refine ⟨hok, ?_, ?_⟩
  · intro r rest leg legs hlegs hsteps
    rcases hst : leg.steps with _ | ⟨s, ss⟩
    · exact absurd hst hsteps
    · simp [_get_polyline_from_route, hlegs, hst]
  · intro responses coordss h cs hcs
    rcases extractPolylines_ok_mem _ coordss h cs hcs with ⟨r, _, hr⟩
    exact hok r cs hr

/-- C9 witness: a guard-passing response with one step raises the NameError,
and a successful batch extraction only ever holds empty routes. -/
theorem c9_gm_unbound_witness :
    _get_polyline_from_route (Resp.pylist [⟨[⟨[⟨[(1, 2)]⟩]⟩]⟩]) = .error (.nameError "gm") := by
  have h := c9_gm_unbound
  exact h.2.1 ⟨[⟨[⟨[(1, 2)]⟩]⟩]⟩ [] ⟨[⟨[(1, 2)]⟩]⟩ [] rfl (by simp)

/-- C3: the route writer writes exactly one feature per surviving route with
ids assigned in written order, and the single-school writer writes exactly
one feature per input point; but `create_multi_points_shapefile` raises a
ValueError on any non-empty dataframe — the comprehension unpacks the
two-tuples of a zip into three targets — writing no features at all, so the
one-feature-per-point invariant fails there (the evaluation below exhibits
it on a one-row dataframe). -/
theorem c3_writer_feature_counts :
    (∀ geoms : List (List Coord),
      (writeRecords geoms).length = geoms.length ∧
      ∀ k : Nat, ((writeRecords geoms)[k]?).map Feature.id
          = if k < geoms.length then some k else none) ∧
    (create_school_shapefile 51 0).length = 1 ∧
    create_multi_points_shapefile [⟨0, 0, "a"⟩]
        = .error (.valueError "not enough values to unpack (expected 3, got 2)") := by
  refine ⟨?_, rfl, rfl⟩
  intro geoms
  refine ⟨by simp [writeRecords], ?_⟩
  intro k
  by_cases hk : k < geoms.length
  · simp [writeRecords, List.getElem?_map, List.getElem?_enum, hk,
      List.getElem?_eq_getElem]
  · simp [writeRecords, List.getElem?_map, List.getElem?_enum, hk,
      List.getElem?_eq_none (le_of_not_lt hk)]
